import Mathlib

/-!
Shallow embedding of the attention-analysis service
(`src/attentionspan/attention_service.py`) and proofs about it.

The embedding keeps the source's names where Lean allows it:
geometry helpers (`eye_aspect_ratio`, `angle_between_eyes`,
`calculate_camera_quality`), the per-frame classifier inside
`AttentionAnalyzer.analyze_frame`, the running-statistics update
(`_update_session_metrics`), the session lifecycle
(`start_session` / `end_session`) and the span/break scan performed at
finalization.  Machine floats are modelled as real numbers; the live
session table (a Python dict) is modelled as a function
`String → Option Session`; external collaborators (image decoding, the
face detector, the database) are modelled by the data they hand to the
code under analysis.
-/

open scoped Classical

namespace AttentionService

/-- `EAR_THRESH = 0.23`, the eye-aspect-ratio threshold of the source. -/
noncomputable def EAR_THRESH : ℝ := 0.23

/-- `ANGLE_MAX = 20`, the maximal head tilt in degrees. -/
noncomputable def ANGLE_MAX : ℝ := 20

/-- Euclidean norm of the difference of two 2-D points
(`np.linalg.norm(p - q)`). -/
noncomputable def vnorm (p q : ℝ × ℝ) : ℝ :=
  Real.sqrt ((p.1 - q.1) ^ 2 + (p.2 - q.2) ^ 2)

/-- `eye_aspect_ratio(eye_pts)` from the source: six ordered eye contour
points, `A = ‖p2−p6‖`, `B = ‖p3−p5‖`, `C = ‖p1−p4‖`; returns `0.0` when
`C == 0`, else `(A + B) / (2.0 * C)`. -/
noncomputable def eye_aspect_ratio (eye_pts : Fin 6 → ℝ × ℝ) : ℝ :=
  let A := vnorm (eye_pts 1) (eye_pts 5)
  let B := vnorm (eye_pts 2) (eye_pts 4)
  let C := vnorm (eye_pts 0) (eye_pts 3)
  if C = 0 then 0.0 else (A + B) / (2.0 * C)

/-- `math.atan2 y x`: the angle of the point `(x, y)`, in `(-π, π]`. -/
noncomputable def atan2 (y x : ℝ) : ℝ :=
  if 0 < x then Real.arctan (y / x)
  else if x < 0 then
    (if 0 ≤ y then Real.arctan (y / x) + Real.pi else Real.arctan (y / x) - Real.pi)
  else if 0 < y then Real.pi / 2
  else if y < 0 then -(Real.pi / 2)
  else 0

/-- `math.degrees`: radians to degrees. -/
noncomputable def degrees (r : ℝ) : ℝ := r * 180 / Real.pi

/-- `angle_between_eyes(left_center, right_center)` from the source:
`dx = right.x − left.x`, `dy = right.y − left.y`; returns `90.0` when
`dx == 0`, else `abs(math.degrees(math.atan2(dy, dx)))`. -/
noncomputable def angle_between_eyes (left_center right_center : ℝ × ℝ) : ℝ :=
  let dx := right_center.1 - left_center.1
  let dy := right_center.2 - left_center.2
  if dx = 0 then 90.0 else |degrees (atan2 dy dx)|

/-- A grayscale image abstracted by the two statistics the quality score
reads from it: `np.std` (contrast) and the Laplacian variance
(sharpness), both computed by external collaborators. -/
structure GrayImage where
  contrast : ℝ
  sharpness : ℝ

/-- `calculate_camera_quality(gray_frame)` from the source:
`max(0, min(100, contrast/64*50 + sharpness/1000*50))`. -/
noncomputable def calculate_camera_quality (gray : GrayImage) : ℝ :=
  max 0 (min 100 (gray.contrast / 64 * 50 + gray.sharpness / 1000 * 50))

/-- The `AttentionMetrics` record produced per frame (the pydantic model,
without the timestamp, which nothing in the analysed logic reads). -/
structure AttentionMetrics where
  session_id : String
  is_attentive : Bool
  eye_aspect_ratio : ℝ
  head_tilt_degrees : ℝ
  face_detected : Bool
  camera_quality : ℝ

/-- What the face-detection collaborator handed back for one frame:
no face; the largest dlib face with its two sets of six eye landmarks
(`landmarks[36:42]` and `landmarks[42:48]`); or a Haar-cascade face,
which carries no landmarks. -/
inductive Detection where
  | noFace
  | dlibFace (left_eye_pts right_eye_pts : Fin 6 → ℝ × ℝ)
  | cascadeFace

/-- A successfully decoded frame: the grayscale image statistics and the
detection result obtained from it. -/
structure DecodedFrame where
  gray : GrayImage
  detection : Detection

/-- The input of one `analyze_frame` call: either some step of
decoding / detection raised (base64 error, `imdecode` returning `None`,
a detector exception), or the frame was decoded and detection ran. -/
inductive FrameInput where
  | failure
  | decoded (frame : DecodedFrame)

/-- Whether a `FrameInput` is a successfully decoded frame. -/
def FrameInput.isDecoded : FrameInput → Bool
  | .failure => false
  | .decoded _ => true

/-- `np.mean(pts, axis=0)` over the six eye landmarks. -/
noncomputable def eye_center (pts : Fin 6 → ℝ × ℝ) : ℝ × ℝ :=
  (((pts 0).1 + (pts 1).1 + (pts 2).1 + (pts 3).1 + (pts 4).1 + (pts 5).1) / 6,
   ((pts 0).2 + (pts 1).2 + (pts 2).2 + (pts 3).2 + (pts 4).2 + (pts 5).2) / 6)

/-- The classification core of `AttentionAnalyzer.analyze_frame` on a
decoded frame: camera quality is computed from the grayscale image in
every case; with no face the metrics are all-zero and not attentive;
with a dlib face the EAR is the mean of the two per-eye ratios and the
tilt comes from the two eye centers; with a cascade face the source
substitutes the fixed EAR `0.3` and tilt `0.0`.  In the two face cases
`is_attentive = (ear >= EAR_THRESH) and (tilt <= ANGLE_MAX)`. -/
noncomputable def classifyFrame (sid : String) (f : DecodedFrame) : AttentionMetrics :=
  let cq := calculate_camera_quality f.gray
  match f.detection with
  | Detection.noFace =>
      { session_id := sid, is_attentive := false, eye_aspect_ratio := 0,
        head_tilt_degrees := 0, face_detected := false, camera_quality := cq }
  | Detection.dlibFace l r =>
      let ear := (eye_aspect_ratio l + eye_aspect_ratio r) / 2
      let tilt := angle_between_eyes (eye_center l) (eye_center r)
      { session_id := sid,
        is_attentive := decide (EAR_THRESH ≤ ear) && decide (tilt ≤ ANGLE_MAX),
        eye_aspect_ratio := ear, head_tilt_degrees := tilt,
        face_detected := true, camera_quality := cq }
  | Detection.cascadeFace =>
      let ear : ℝ := 0.3
      let tilt : ℝ := 0
      { session_id := sid,
        is_attentive := decide (EAR_THRESH ≤ ear) && decide (tilt ≤ ANGLE_MAX),
        eye_aspect_ratio := ear, head_tilt_degrees := tilt,
        face_detected := true, camera_quality := cq }

/-- One entry of `session['frames']`: the fields the source stores per
appended frame (minus the timestamp). -/
structure FrameRec where
  is_attentive : Bool
  ear : ℝ
  tilt : ℝ
  face_detected : Bool
  camera_quality : ℝ

/-- The `session['stats']` dictionary as recomputed by
`_update_session_metrics`. -/
structure SessionStats where
  total_frames : ℕ
  attentive_frames : ℕ
  attention_score : ℝ
  avg_ear : ℝ
  avg_tilt : ℝ
  frames_with_face : ℕ
  frames_without_face : ℕ
  avg_camera_quality : ℝ

/-- One entry of `self.sessions`: identifying fields, the append-only
frame history, and the stats dictionary (`none` models the initial empty
dict `{}` set by `start_session`). -/
structure Session where
  child_id : String
  module_id : String
  frames : List FrameRec
  stats : Option SessionStats

/-- `stats.get(key, 0)` for a real-valued entry. -/
noncomputable def statGet (st : Option SessionStats) (f : SessionStats → ℝ) : ℝ :=
  match st with
  | none => 0
  | some s => f s

/-- `stats.get(key, 0)` for an integer-valued entry. -/
def statGetN (st : Option SessionStats) (f : SessionStats → ℕ) : ℕ :=
  match st with
  | none => 0
  | some s => f s

/-- `np.mean` over a list of reals (only ever applied to non-empty lists
by the source; Lean's `x / 0 = 0` stands in for the unreachable empty
case). -/
noncomputable def listMean (l : List ℝ) : ℝ := l.sum / l.length

/-- The stats dictionary `_update_session_metrics` recomputes from the
whole frame history after each append. -/
noncomputable def computeStats (frames : List FrameRec) : SessionStats :=
  let total := frames.length
  let att := (frames.filter (fun f => f.is_attentive)).length
  { total_frames := total
    attentive_frames := att
    attention_score := if 0 < total then (att : ℝ) / (total : ℝ) * 100 else 0
    avg_ear := if frames.any (fun f => f.face_detected) then
        listMean ((frames.filter (fun f => f.face_detected)).map (fun f => f.ear)) else 0
    avg_tilt := if frames.any (fun f => f.face_detected) then
        listMean ((frames.filter (fun f => f.face_detected)).map (fun f => f.tilt)) else 0
    frames_with_face := (frames.filter (fun f => f.face_detected)).length
    frames_without_face := (frames.filter (fun f => !f.face_detected)).length
    avg_camera_quality := listMean (frames.map (fun f => f.camera_quality)) }

/-- The dictionary `_update_session_metrics` appends to
`session['frames']` for a given `AttentionMetrics`. -/
def frameRecOf (m : AttentionMetrics) : FrameRec :=
  { is_attentive := m.is_attentive, ear := m.eye_aspect_ratio,
    tilt := m.head_tilt_degrees, face_detected := m.face_detected,
    camera_quality := m.camera_quality }

/-- The per-session effect of `_update_session_metrics`: append the
frame record and recompute the stats dictionary from the new history. -/
noncomputable def sessionAppend (s : Session) (m : AttentionMetrics) : Session :=
  let frames := s.frames ++ [frameRecOf m]
  { s with frames := frames, stats := some (computeStats frames) }

/-- The live session table `self.sessions` (a Python dict keyed by the
session id string). -/
def SessionTable : Type := String → Option Session

/-- The empty session table. -/
def emptyTable : SessionTable := fun _ => none

/-- `self.sessions[sid] = s`. -/
def tableSet (t : SessionTable) (sid : String) (s : Session) : SessionTable :=
  fun k => if k = sid then some s else t k

/-- `del self.sessions[sid]`. -/
def tableErase (t : SessionTable) (sid : String) : SessionTable :=
  fun k => if k = sid then none else t k

/-- The session record `start_session` registers: empty frame history,
empty stats dictionary. -/
def newSession (child_id module_id : String) : Session :=
  { child_id := child_id, module_id := module_id, frames := [], stats := none }

/-- `AttentionAnalyzer.start_session`, with the generated uuid passed in
explicitly. -/
def start_session (t : SessionTable) (sid child_id module_id : String) : SessionTable :=
  tableSet t sid (newSession child_id module_id)

/-- `AttentionAnalyzer._update_session_metrics`: if the session id is
not in the live table the call returns without doing anything; otherwise
it appends the frame and recomputes the running stats. -/
noncomputable def update_session_metrics (t : SessionTable) (sid : String)
    (m : AttentionMetrics) : SessionTable :=
  match t sid with
  | none => t
  | some s => tableSet t sid (sessionAppend s m)

/-- `AttentionAnalyzer.analyze_frame`: on any internal failure the
`except` branch returns the all-zero degraded metrics and touches no
session; on a decoded frame it classifies, records the metrics via
`_update_session_metrics`, and returns them. -/
noncomputable def analyze_frame (t : SessionTable) (sid : String) :
    FrameInput → AttentionMetrics × SessionTable
  | FrameInput.failure =>
      ({ session_id := sid, is_attentive := false, eye_aspect_ratio := 0,
         head_tilt_degrees := 0, face_detected := false, camera_quality := 0 }, t)
  | FrameInput.decoded f =>
      let m := classifyFrame sid f
      (m, update_session_metrics t sid m)

/-- The websocket loop's effect on the session table: one
`analyze_frame` call per received frame, in arrival order. -/
noncomputable def processFrames (t : SessionTable) (sid : String)
    (inputs : List FrameInput) : SessionTable :=
  inputs.foldl (fun tb i => (analyze_frame tb sid i).2) t

/-- The state of the span scan in `end_session`:
`(attention_spans, current_span, breaks)`. -/
def spanLoop : List ℕ × ℕ × ℕ → List Bool → List ℕ × ℕ × ℕ
  | acc, [] => acc
  | (spans, cur, brks), b :: rest =>
      if b then spanLoop (spans, cur + 1, brks) rest
      else if 0 < cur then spanLoop (spans ++ [cur], 0, brks + 1) rest
      else spanLoop (spans, cur, brks) rest

/-- The `attention_spans` list of `end_session`: the scan's completed
spans, plus the trailing span when the history ends attentive. -/
def attention_spans (verdicts : List Bool) : List ℕ :=
  let r := spanLoop ([], 0, 0) verdicts
  if 0 < r.2.1 then r.1 ++ [r.2.1] else r.1

/-- The `breaks` counter of `end_session`'s scan: incremented only on an
observed attentive → non-attentive transition, never for the trailing
run. -/
def attention_breaks (verdicts : List Bool) : ℕ :=
  (spanLoop ([], 0, 0) verdicts).2.2

/-- Specification-side count of attentive → non-attentive transitions:
`countTransitions prev l` counts the positions of `l` holding `false`
whose predecessor (the element before, or `prev` at the head) is
`true`. -/
def countTransitions : Bool → List Bool → ℕ
  | _, [] => 0
  | prev, b :: rest => (if prev && !b then 1 else 0) + countTransitions b rest

/-- The two failure modes of `end_session` (`ValueError`s in the
source): unknown session id, and a session with no analyzed frames. -/
inductive SessionError where
  | sessionNotFound
  | emptySession
deriving DecidableEq

/-- The `SessionSummary` pydantic model. -/
structure SessionSummary where
  session_id : String
  child_id : String
  module_id : String
  attention_score : ℝ
  engagement_level : String
  total_frames : ℕ
  attentive_frames : ℕ
  attention_breaks : ℕ
  longest_attention_span : ℕ
  avg_attention_span : ℝ

/-- `AttentionAnalyzer._save_session_to_db`: the whole body is wrapped
in `try/except`, so whether the persistence collaborator (modelled as
the `db` predicate: `true` = the save succeeded) fails or not, the call
returns normally — the failure is only logged. -/
def save_session_to_db (db : SessionSummary → Bool) (summary : SessionSummary) : Unit :=
  match db summary with
  | true => ()
  | false => ()

/-- `AttentionAnalyzer.end_session`: raise `sessionNotFound` when the id
is absent, `emptySession` when no frames were recorded; otherwise scan
the frame history for spans and breaks, build the summary from the
running stats and the scan, attempt the (failure-swallowing) database
save, delete the session from the live table and return the summary. -/
noncomputable def end_session (db : SessionSummary → Bool) (t : SessionTable)
    (sid : String) : Except SessionError (SessionSummary × SessionTable) :=
  match t sid with
  | none => Except.error SessionError.sessionNotFound
  | some s =>
      if s.frames.isEmpty then Except.error SessionError.emptySession
      else
        let verdicts := s.frames.map (fun f => f.is_attentive)
        let spans := attention_spans verdicts
        let brks := attention_breaks verdicts
        let score := statGet s.stats (fun st => st.attention_score)
        let summary : SessionSummary :=
          { session_id := sid
            child_id := s.child_id
            module_id := s.module_id
            attention_score := score
            engagement_level :=
              if 80 ≤ score then "high" else if 50 ≤ score then "medium" else "low"
            total_frames := statGetN s.stats (fun st => st.total_frames)
            attentive_frames := statGetN s.stats (fun st => st.attentive_frames)
            attention_breaks := brks
            longest_attention_span := if spans = [] then 0 else spans.foldl max 0
            avg_attention_span :=
              if spans = [] then 0 else (spans.sum : ℝ) / (spans.length : ℝ) }
        let _ := save_session_to_db db summary
        Except.ok (summary, tableErase t sid)

/-- The invariant of claim C2, phrased through the `stats.get(_, 0)`
view the rest of the source uses: the stats dictionary's frame count
equals the history length, its attentive count equals the number of
attentive frames in the history, and the attention score is the
attentive percentage (0 for an empty history). -/
noncomputable def statsInv (s : Session) : Prop :=
  statGetN s.stats (fun st => st.total_frames) = s.frames.length ∧
  statGetN s.stats (fun st => st.attentive_frames) =
    (s.frames.filter (fun f => f.is_attentive)).length ∧
  statGet s.stats (fun st => st.attention_score) =
    (if 0 < s.frames.length then
      ((s.frames.filter (fun f => f.is_attentive)).length : ℝ) / (s.frames.length : ℝ) * 100
     else 0)

/-- An attentive frame record (test fixture for the span-scan claims). -/
def frA : FrameRec :=
  { is_attentive := true, ear := 0, tilt := 0, face_detected := true, camera_quality := 0 }

/-- A non-attentive frame record (test fixture). -/
def frN : FrameRec :=
  { is_attentive := false, ear := 0, tilt := 0, face_detected := true, camera_quality := 0 }

/-- A session whose verdict history is `[A,A,A,N,A,A,N,A]` (fixture). -/
noncomputable def sessAAB : Session :=
  { child_id := "c", module_id := "m",
    frames := [frA, frA, frA, frN, frA, frA, frN, frA],
    stats := some (computeStats [frA, frA, frA, frN, frA, frA, frN, frA]) }

/-- A session whose verdict history is `[A,A,A]` (fixture). -/
noncomputable def sessAAA : Session :=
  { child_id := "c", module_id := "m",
    frames := [frA, frA, frA],
    stats := some (computeStats [frA, frA, frA]) }

/-! ## Theorems -/

/-- C8: `eye_aspect_ratio` on six ordered eye contour points returns
`(‖p2−p6‖ + ‖p3−p5‖) / (2·‖p1−p4‖)`, and returns exactly `0.0` whenever
`‖p1−p4‖ = 0` — it is a total pure function, so no division error can
occur (the division-by-zero branch is taken first). -/
theorem eye_aspect_ratio_spec (pts : Fin 6 → ℝ × ℝ) :
    (vnorm (pts 0) (pts 3) = 0 → eye_aspect_ratio pts = 0) ∧
    eye_aspect_ratio pts =
      (vnorm (pts 1) (pts 5) + vnorm (pts 2) (pts 4)) / (2 * vnorm (pts 0) (pts 3)) := by
  constructor
  · intro h
    simp [eye_aspect_ratio, h]
    norm_num
  · by_cases h : vnorm (pts 0) (pts 3) = 0
    · simp [eye_aspect_ratio, h]
      norm_num
    · simp [eye_aspect_ratio, h]
      norm_num

/-- C8 witness: at six coincident points the horizontal distance is zero
and the ratio is exactly `0`. -/
theorem eye_aspect_ratio_spec_witness :
    vnorm ((fun _ => ((1 : ℝ), (2 : ℝ))) (0 : Fin 6)) ((fun _ => ((1 : ℝ), (2 : ℝ))) 3) = 0 ∧
    eye_aspect_ratio (fun _ => ((1 : ℝ), (2 : ℝ))) = 0 := by
  have h : vnorm ((fun _ : Fin 6 => ((1 : ℝ), (2 : ℝ))) 0)
      ((fun _ : Fin 6 => ((1 : ℝ), (2 : ℝ))) 3) = 0 := by
    simp [vnorm]
  exact ⟨h, (eye_aspect_ratio_spec (fun _ => ((1 : ℝ), (2 : ℝ)))).1 h⟩

/-- C9: `angle_between_eyes` returns `90.0` when the two eye centers
share the same horizontal (x) coordinate (`dx = 0`), otherwise returns
`|math.degrees (math.atan2 dy dx)|`, and the result is non-negative for
every pair of centers. -/
theorem angle_between_eyes_spec (lc rc : ℝ × ℝ) :
    (rc.1 - lc.1 = 0 → angle_between_eyes lc rc = 90) ∧
    (rc.1 - lc.1 ≠ 0 →
      angle_between_eyes lc rc = |degrees (atan2 (rc.2 - lc.2) (rc.1 - lc.1))|) ∧
    0 ≤ angle_between_eyes lc rc := by
  refine ⟨fun h => by simp [angle_between_eyes, h]; norm_num,
          fun h => by simp [angle_between_eyes, h], ?_⟩
  by_cases h : rc.1 - lc.1 = 0
  · simp [angle_between_eyes, h]
    norm_num
  · simp [angle_between_eyes, h]

/-- C10 counterexample: distinct centers with equal y-coordinates,
`(0,0)` and `(1,0)`, give tilt `0`, not the claimed `90`; identical
centers `(0,0)` give `90` (the `dx == 0` path IS hit), not the claimed
`0`. -/
theorem head_tilt_equal_y_cex :
    angle_between_eyes ((0 : ℝ), (0 : ℝ)) ((1 : ℝ), (0 : ℝ)) = 0 ∧
    angle_between_eyes ((0 : ℝ), (0 : ℝ)) ((1 : ℝ), (0 : ℝ)) ≠ 90 ∧
    angle_between_eyes ((0 : ℝ), (0 : ℝ)) ((0 : ℝ), (0 : ℝ)) = 90 ∧
    angle_between_eyes ((0 : ℝ), (0 : ℝ)) ((0 : ℝ), (0 : ℝ)) ≠ 0 := by
  have h0 : angle_between_eyes ((0 : ℝ), (0 : ℝ)) ((1 : ℝ), (0 : ℝ)) = 0 := by
    norm_num [angle_between_eyes, atan2, degrees, Real.arctan_zero]
  have h90 : angle_between_eyes ((0 : ℝ), (0 : ℝ)) ((0 : ℝ), (0 : ℝ)) = 90 := by
    norm_num [angle_between_eyes]
  refine ⟨h0, by rw [h0]; norm_num, h90, by rw [h90]; norm_num⟩

/-- C10 amended: centers sharing the same x-coordinate — including
identical centers, which do take the `dx == 0` path — give `90.0`;
distinct centers with equal y-coordinates give `0.0` when the right
center's x exceeds the left's and `180.0` when it is smaller. -/
theorem head_tilt_axis_cases (lc rc : ℝ × ℝ) :
    (rc.1 = lc.1 → angle_between_eyes lc rc = 90) ∧
    (rc.2 = lc.2 → lc.1 < rc.1 → angle_between_eyes lc rc = 0) ∧
    (rc.2 = lc.2 → rc.1 < lc.1 → angle_between_eyes lc rc = 180) := by
  refine ⟨fun h => by simp [angle_between_eyes, h]; norm_num, fun hy hx => ?_, fun hy hx => ?_⟩
  · have hpos : (0 : ℝ) < rc.1 - lc.1 := sub_pos.mpr hx
    simp [angle_between_eyes, ne_of_gt hpos, hy, atan2, hpos, degrees, Real.arctan_zero]
  · have hneg : rc.1 - lc.1 < 0 := sub_neg.mpr hx
    simp [angle_between_eyes, ne_of_lt hneg, hy, atan2, not_lt.mpr (le_of_lt hneg), hneg,
      degrees, Real.arctan_zero]
    rw [mul_comm, mul_div_assoc, div_self Real.pi_ne_zero, mul_one]
    norm_num

/-- Helper: the `breaks` counter computed by the scan loop equals the
accumulator plus the number of attentive → non-attentive transitions in
the remaining verdicts, where the previous frame is modelled attentive
exactly when `current_span > 0`. -/
theorem spanLoop_breaks (l : List Bool) : ∀ spans cur brks,
    (spanLoop (spans, cur, brks) l).2.2 = brks + countTransitions (decide (0 < cur)) l := by
  induction l with
  | nil => intro spans cur brks; simp [spanLoop, countTransitions]
  | cons b rest ih =>
    intro spans cur brks
    cases b
    · by_cases hc : 0 < cur
      · have h1 : spanLoop (spans, cur, brks) (false :: rest)
            = spanLoop (spans ++ [cur], 0, brks + 1) rest := by
          simp [spanLoop, hc]
        rw [h1, ih]
        have h2 : decide (0 < cur) = true := by simpa using hc
        simp [countTransitions, h2]
        omega
      · have h1 : spanLoop (spans, cur, brks) (false :: rest)
            = spanLoop (spans, cur, brks) rest := by
          simp [spanLoop, hc]
        have h2 : decide (0 < cur) = false := by simpa using hc
        rw [h1, ih]
        simp [countTransitions, h2]
    · have h1 : spanLoop (spans, cur, brks) (true :: rest)
          = spanLoop (spans, cur + 1, brks) rest := by
        simp [spanLoop]
      rw [h1, ih]
      simp [countTransitions]

/-- C1: the finalization scan counts a break exactly at each observed
attentive → non-attentive transition (so a trailing attentive run never
increments `attention_breaks`); on the verdict history `[A,A,A,N,A,A,N,A]`
the spans are `[3,2,1]` and `end_session` reports `attention_breaks = 2`,
`longest_attention_span = 3`, `avg_attention_span = 2`; on `[A,A,A]` it
reports `attention_breaks = 0` and `longest_attention_span = 3`. -/
theorem end_session_span_scan :
    (∀ verdicts : List Bool, attention_breaks verdicts = countTransitions false verdicts) ∧
    attention_spans [true, true, true, false, true, true, false, true] = [3, 2, 1] ∧
    (∃ s t', end_session (fun _ => true) (tableSet emptyTable "s1" sessAAB) "s1" =
        Except.ok (s, t') ∧
      s.attention_breaks = 2 ∧ s.longest_attention_span = 3 ∧ s.avg_attention_span = 2) ∧
    (∃ s t', end_session (fun _ => true) (tableSet emptyTable "s2" sessAAA) "s2" =
        Except.ok (s, t') ∧
      s.attention_breaks = 0 ∧ s.longest_attention_span = 3) := by
  refine ⟨?_, by decide, ?_, ?_⟩
  · intro v
    have h := spanLoop_breaks v [] 0 0
    simpa [attention_breaks] using h
  · have htbl : (tableSet emptyTable "s1" sessAAB) "s1" = some sessAAB := by
      simp [tableSet]
    simp only [end_session, htbl]
    simp only [sessAAB, frA, frN]
    norm_num [attention_spans, attention_breaks, spanLoop, List.isEmpty]
    simp
  · have htbl : (tableSet emptyTable "s2" sessAAA) "s2" = some sessAAA := by
      simp [tableSet]
    simp only [end_session, htbl]
    simp only [sessAAA, frA, frN]
    norm_num [attention_spans, attention_breaks, spanLoop, List.isEmpty]

/-- Helper: a freshly started session (empty history, empty stats dict)
satisfies the running-stats invariant. -/
theorem statsInv_newSession (child_id module_id : String) :
    statsInv (newSession child_id module_id) := by
  simp [statsInv, newSession, statGetN, statGet]

/-- Helper: the invariant is re-established by every append, because
`_update_session_metrics` recomputes the whole stats dict from the new
history. -/
theorem statsInv_sessionAppend (s : Session) (m : AttentionMetrics) :
    statsInv (sessionAppend s m) := by
  have hne : 0 < (s.frames ++ [frameRecOf m]).length := by simp
  simp [statsInv, sessionAppend, computeStats, statGetN, statGet, hne]

/-- Helper: the invariant holds after any sequence of appends from an
invariant-satisfying session. -/
theorem statsInv_foldl (ms : List AttentionMetrics) : ∀ s : Session,
    statsInv s → statsInv (ms.foldl sessionAppend s) := by
  induction ms with
  | nil => intro s h; simpa using h
  | cons m rest ih =>
    intro s _
    simpa [List.foldl_cons] using ih (sessionAppend s m) (statsInv_sessionAppend s m)

/-- C2: after every append the running stats agree with the frame
history — the frame count equals the history length, the attentive
count equals the number of attentive frames, and the attention score is
`attentive/total*100` (0 for an empty history).  This holds for a fresh
session, after any single append, after any sequence of appends, and is
preserved across `_update_session_metrics` for every entry of the live
table. -/
theorem running_stats_invariant :
    (∀ child_id module_id : String, statsInv (newSession child_id module_id)) ∧
    (∀ (s : Session) (m : AttentionMetrics), statsInv (sessionAppend s m)) ∧
    (∀ (child_id module_id : String) (ms : List AttentionMetrics),
      statsInv (ms.foldl sessionAppend (newSession child_id module_id))) ∧
    (∀ (t : SessionTable) (sid : String) (m : AttentionMetrics) (k : String) (s : Session),
      (∀ k' s', t k' = some s' → statsInv s') →
      update_session_metrics t sid m k = some s → statsInv s) := by
  refine ⟨statsInv_newSession, statsInv_sessionAppend,
    fun c md ms => statsInv_foldl ms _ (statsInv_newSession c md), ?_⟩
  intro t sid m k s hall h
  rw [update_session_metrics] at h
  cases ht : t sid with
  | none => rw [ht] at h; exact hall k s h
  | some s₀ =>
      rw [ht] at h
      simp only [tableSet] at h
      by_cases hk : k = sid
      · rw [if_pos hk] at h
        cases h
        exact statsInv_sessionAppend s₀ m
      · rw [if_neg hk] at h
        exact hall k s h

/-- C3: the metrics `analyze_frame` returns for a decoded frame are
`classifyFrame`'s; with no face they are not-attentive with zero EAR and
tilt, `face_detected = false`, and the camera quality still computed
from the image; with a detected face, attentiveness is exactly
`EAR_THRESH ≤ ear ∧ tilt ≤ ANGLE_MAX` (thresholds `0.23` and `20`); and
the no-landmark cascade fallback (EAR `0.3`, tilt `0`) classifies every
detected face as attentive. -/
theorem analyze_frame_classification :
    EAR_THRESH = 0.23 ∧ ANGLE_MAX = 20 ∧
    (∀ (t : SessionTable) (sid : String) (f : DecodedFrame),
      (analyze_frame t sid (FrameInput.decoded f)).1 = classifyFrame sid f) ∧
    (∀ (sid : String) (g : GrayImage),
      classifyFrame sid ⟨g, Detection.noFace⟩ =
        { session_id := sid, is_attentive := false, eye_aspect_ratio := 0,
          head_tilt_degrees := 0, face_detected := false,
          camera_quality := calculate_camera_quality g }) ∧
    (∀ (sid : String) (g : GrayImage) (l r : Fin 6 → ℝ × ℝ),
      (classifyFrame sid ⟨g, Detection.dlibFace l r⟩).face_detected = true ∧
      ((classifyFrame sid ⟨g, Detection.dlibFace l r⟩).is_attentive = true ↔
        EAR_THRESH ≤ (classifyFrame sid ⟨g, Detection.dlibFace l r⟩).eye_aspect_ratio ∧
        (classifyFrame sid ⟨g, Detection.dlibFace l r⟩).head_tilt_degrees ≤ ANGLE_MAX)) ∧
    (∀ (sid : String) (g : GrayImage),
      (classifyFrame sid ⟨g, Detection.cascadeFace⟩).eye_aspect_ratio = 0.3 ∧
      (classifyFrame sid ⟨g, Detection.cascadeFace⟩).head_tilt_degrees = 0 ∧
      (classifyFrame sid ⟨g, Detection.cascadeFace⟩).face_detected = true ∧
      (classifyFrame sid ⟨g, Detection.cascadeFace⟩).is_attentive = true) := by
  refine ⟨rfl, rfl, fun t sid f => rfl, fun sid g => rfl, fun sid g l r => ?_, fun sid g => ?_⟩
  · refine ⟨rfl, ?_⟩
    simp [classifyFrame, Bool.and_eq_true, decide_eq_true_eq]
  · refine ⟨rfl, rfl, rfl, ?_⟩
    simp only [classifyFrame, Bool.and_eq_true, decide_eq_true_eq]
    norm_num [EAR_THRESH, ANGLE_MAX]

/-- Helper: a successful `end_session` leaves the table with the id
deleted. -/
theorem end_session_ok_erase (db : SessionSummary → Bool) (t : SessionTable) (sid : String)
    (summ : SessionSummary) (t' : SessionTable) :
    end_session db t sid = Except.ok (summ, t') → t' = tableErase t sid := by
  intro h
  cases ht : t sid with
  | none => rw [end_session, ht] at h; simp at h
  | some s =>
    rw [end_session, ht] at h
    by_cases he : s.frames.isEmpty
    · simp [he] at h
    · simp only [he, if_false, Bool.false_eq_true] at h
      cases h
      rfl

/-- Helper: after a session id is erased, `end_session` on it fails with
`sessionNotFound`. -/
theorem erase_not_found (db : SessionSummary → Bool) (t : SessionTable) (sid : String) :
    end_session db (tableErase t sid) sid = Except.error SessionError.sessionNotFound := by
  have h : (tableErase t sid) sid = none := by simp [tableErase]
  rw [end_session, h]

/-- C5: `end_session` fails with `sessionNotFound` when the id is absent
from the live table, fails with `emptySession` when the session exists
with zero appended frames, and a successful call removes the session so
a second `end_session` on the same id fails with `sessionNotFound` (the
success path is witnessed concretely on a non-empty session). -/
theorem end_session_lifecycle :
    (∀ (db : SessionSummary → Bool) (t : SessionTable) (sid : String),
      t sid = none → end_session db t sid = Except.error SessionError.sessionNotFound) ∧
    (∀ (db : SessionSummary → Bool) (t : SessionTable) (sid : String) (s : Session),
      t sid = some s → s.frames = [] →
      end_session db t sid = Except.error SessionError.emptySession) ∧
    (∀ (db : SessionSummary → Bool) (t : SessionTable) (sid : String)
        (summ : SessionSummary) (t' : SessionTable),
      end_session db t sid = Except.ok (summ, t') →
      t' sid = none ∧
      ∀ db' : SessionSummary → Bool,
        end_session db' t' sid = Except.error SessionError.sessionNotFound) ∧
    (∃ s t', end_session (fun _ => true) (tableSet emptyTable "s3" sessAAA) "s3" =
      Except.ok (s, t')) := by
  refine ⟨?_, ?_, ?_, ?_⟩
  · intro db t sid h
    rw [end_session, h]
  · intro db t sid s h hemp
    rw [end_session, h]
    simp [hemp]
  · intro db t sid summ t' h
    have he := end_session_ok_erase db t sid summ t' h
    subst he
    exact ⟨by simp [tableErase], fun db' => erase_not_found db' t sid⟩
  · have htbl : (tableSet emptyTable "s3" sessAAA) "s3" = some sessAAA := by
      simp [tableSet]
    rw [end_session, htbl]
    have hne : sessAAA.frames.isEmpty = false := by simp [sessAAA]
    simp only [hne, Bool.false_eq_true, if_false]
    exact ⟨_, _, rfl⟩

/-- C6: the outcome of `end_session` does not depend on the persistence
collaborator at all — `_save_session_to_db` swallows its failure — so
for every non-empty session, even with a persistence collaborator that
always fails, finalization still removes the session from the live table
and still returns the completed summary. -/
theorem end_session_persistence_failure_nonfatal :
    (∀ (db₁ db₂ : SessionSummary → Bool) (t : SessionTable) (sid : String),
      end_session db₁ t sid = end_session db₂ t sid) ∧
    (∀ (t : SessionTable) (sid : String) (s : Session),
      t sid = some s → s.frames ≠ [] →
      ∃ summ, end_session (fun _ => false) t sid = Except.ok (summ, tableErase t sid)) := by
  constructor
  · intro db₁ db₂ t sid
    rfl
  · intro t sid s h hne
    rw [end_session, h]
    have hne' : s.frames.isEmpty = false := by
      simpa [List.isEmpty_iff] using hne
    simp only [hne', Bool.false_eq_true, if_false]
    exact ⟨_, rfl⟩

/-- C4 counterexample: with an empty live table (the id "missing" is
absent), `analyze_frame` does not fail — it returns a full
classification (a detected, attentive face) and leaves the table
untouched, so no `SessionNotFound` error is raised for `record_frame`
on an absent id. -/
theorem record_frame_absent_id_cex :
    (analyze_frame emptyTable "missing"
      (FrameInput.decoded ⟨⟨0, 0⟩, Detection.cascadeFace⟩)).1.face_detected = true ∧
    (analyze_frame emptyTable "missing"
      (FrameInput.decoded ⟨⟨0, 0⟩, Detection.cascadeFace⟩)).1.is_attentive = true ∧
    (analyze_frame emptyTable "missing"
      (FrameInput.decoded ⟨⟨0, 0⟩, Detection.cascadeFace⟩)).2 = emptyTable := by
  refine ⟨rfl, ?_, rfl⟩
  show (classifyFrame "missing" ⟨⟨0, 0⟩, Detection.cascadeFace⟩).is_attentive = true
  simp only [classifyFrame, Bool.and_eq_true, decide_eq_true_eq]
  norm_num [EAR_THRESH, ANGLE_MAX]

/-- C4 amended: frame analysis for an id absent from the live table does
not fail with `SessionNotFound`; it returns the frame's classification
and records nothing (the table is unchanged), and the same holds for any
id retired by a successful `end_session`. -/
theorem record_frame_absent_id_behavior :
    (∀ (t : SessionTable) (sid : String) (f : DecodedFrame), t sid = none →
      analyze_frame t sid (FrameInput.decoded f) = (classifyFrame sid f, t)) ∧
    (∀ (db : SessionSummary → Bool) (t : SessionTable) (sid : String)
        (summ : SessionSummary) (t' : SessionTable) (f : DecodedFrame),
      end_session db t sid = Except.ok (summ, t') →
      analyze_frame t' sid (FrameInput.decoded f) = (classifyFrame sid f, t')) := by
  have habs : ∀ (t : SessionTable) (sid : String) (f : DecodedFrame), t sid = none →
      analyze_frame t sid (FrameInput.decoded f) = (classifyFrame sid f, t) := by
    intro t sid f h
    simp [analyze_frame, update_session_metrics, h]
  refine ⟨habs, ?_⟩
  intro db t sid summ t' f h
  have he := end_session_ok_erase db t sid summ t' h
  subst he
  exact habs _ _ _ (by simp [tableErase])

/-- Helper: over any input sequence, a live session's frame history
grows by exactly the number of successfully decoded frames — failed
frames contribute nothing. -/
theorem processFrames_length (inputs : List FrameInput) :
    ∀ (t : SessionTable) (sid : String) (s : Session), t sid = some s →
    ∃ s', (processFrames t sid inputs) sid = some s' ∧
      s'.frames.length = s.frames.length + (inputs.filter FrameInput.isDecoded).length := by
  induction inputs with
  | nil =>
    intro t sid s h
    exact ⟨s, by simpa [processFrames] using h, by simp⟩
  | cons i rest ih =>
    intro t sid s h
    cases i with
    | failure =>
        have hstep : processFrames t sid (FrameInput.failure :: rest)
            = processFrames t sid rest := rfl
        rw [hstep]
        obtain ⟨s', h1, h2⟩ := ih t sid s h
        exact ⟨s', h1, by simpa [FrameInput.isDecoded] using h2⟩
    | decoded f =>
        have hupd : (analyze_frame t sid (FrameInput.decoded f)).2 sid
            = some (sessionAppend s (classifyFrame sid f)) := by
          simp [analyze_frame, update_session_metrics, h, tableSet]
        have hstep : processFrames t sid (FrameInput.decoded f :: rest)
            = processFrames ((analyze_frame t sid (FrameInput.decoded f)).2) sid rest := rfl
        rw [hstep]
        obtain ⟨s', h1, h2⟩ := ih _ sid _ hupd
        refine ⟨s', h1, ?_⟩
        simp only [sessionAppend, List.length_append, List.length_cons,
          List.length_nil] at h2
        simp only [List.filter, FrameInput.isDecoded, List.length_cons]
        omega

/-- C7: on any internal failure `analyze_frame` returns the degraded
all-zero metrics (not attentive, no face, zero quality) and leaves the
whole session table exactly unchanged; consequently over any input
sequence a session's frame history counts only the successfully decoded
frames, so failed frames never enter any session statistic. -/
theorem analyze_frame_failure_no_append :
    (∀ (t : SessionTable) (sid : String),
      analyze_frame t sid FrameInput.failure =
        ({ session_id := sid, is_attentive := false, eye_aspect_ratio := 0,
           head_tilt_degrees := 0, face_detected := false, camera_quality := 0 }, t)) ∧
    (∀ (t : SessionTable) (sid : String) (s : Session) (inputs : List FrameInput),
      t sid = some s →
      ∃ s', (processFrames t sid inputs) sid = some s' ∧
        s'.frames.length = s.frames.length +
          (inputs.filter FrameInput.isDecoded).length) := by
  exact ⟨fun t sid => rfl, fun t sid s inputs h => processFrames_length inputs t sid s h⟩

end AttentionService
